import Mathlib

/-!
Shallow embedding of the scene-to-video rendering pipeline of the backend:
`VideoService` (createVideo / createSegment / concatenateSegments /
cleanupSegments, in services/imageService.js after the ImageService class)
and `TTSService` (generateAudioForScenes / generateSpeech, in
services/ttsService.js).

External effects (ffmpeg invocations, the filesystem) are modelled by
oracles: `FFmpegEnv` records, per segment index, whether the encode
succeeds, whether concatenation succeeds, and which files exist on disk;
`TTSEnv` records, per scene id, whether each speech provider succeeds.
Temporary files are tracked as explicit path lists threaded through the
run, so cleanup behaviour is observable in the run outcome.
-/

namespace Backend

/-- A scene of the script: `{ id, duration, narration }` (the fields the
pipeline reads; `visualDescription`/`visualType` are only consumed by the
image collaborator). -/
structure Scene where
  id : Nat
  duration : Nat
  narration : String
deriving Repr, DecidableEq

/-- A finalized script: ordered scenes plus the precomputed
`totalDuration` supplied by the script-construction collaborator. -/
structure Script where
  scenes : List Scene
  totalDuration : Nat
deriving Repr, DecidableEq

/-- An image asset record `{ sceneId, path }` as produced by the image
collaborator. -/
structure ImageAsset where
  sceneId : Nat
  path : String
deriving Repr, DecidableEq

/-- An audio record `{ sceneId, path, duration, silent }` as produced by
`TTSService.generateAudioForScenes`; `path = none` models a null path
(JS pushes `path: null, silent: true` on failure, and no `silent` field —
i.e. falsy — on success). -/
structure AudioAsset where
  sceneId : Nat
  path : Option String
  duration : Nat
  silent : Bool
deriving Repr, DecidableEq

/-- Oracle for the external encoding processes and the filesystem:
`encodeOk i` is whether the ffmpeg encode of segment `i` succeeds,
`concatOk` whether the concatenation process succeeds, `fsExists p`
models `fsSync.existsSync(p)`, and `outputSize` the `fs.stat` size of the
final output file. -/
structure FFmpegEnv where
  encodeOk : Nat → Bool
  concatOk : Bool
  fsExists : String → Bool
  outputSize : Nat

/-- The lookup `images.find(img => img.sceneId === scene.id)` in createVideo. -/
def findImage (images : List ImageAsset) (sceneId : Nat) : Option ImageAsset :=
  images.find? (fun img => img.sceneId == sceneId)

/-- The lookup `audioFiles.find(aud => aud.sceneId === scene.id)` in createVideo. -/
def findAudio (audioFiles : List AudioAsset) (sceneId : Nat) : Option AudioAsset :=
  audioFiles.find? (fun aud => aud.sceneId == sceneId)

/-- JS truthiness of `image?.path`: the scene is skipped when no image
record matched or its path is falsy (empty string). -/
def imagePathOf (image : Option ImageAsset) : Option String :=
  match image with
  | none => none
  | some img => if img.path = "" then none else some img.path

/-- The access `audio?.path`: `none` when no audio record matched or its path is null. -/
def audioPathOf (audio : Option AudioAsset) : Option String :=
  match audio with
  | none => none
  | some aud => aud.path

/-- The `if (audioPath && fsSync.existsSync(audioPath))` branch condition
in createSegment: the segment gets an audio track exactly when an audio
path was supplied, is truthy, and the file exists; otherwise the output
options include `-an` (no audio stream at all). -/
def audioStreamIncluded (env : FFmpegEnv) (audioPath : Option String) : Bool :=
  match audioPath with
  | none => false
  | some p => if p = "" then false else env.fsExists p

/-- The path `path.join(this.tempDir, 'segments', 'segment_' + index + '.mp4')`:
the segment path depends only on the loop index, not on any run id. -/
def segmentPath (index : Nat) : String :=
  "temp/segments/segment_" ++ toString index ++ ".mp4"

/-- The path `path.join(this.tempDir, 'concat_list.txt')`: a fixed path shared by
every run. -/
def concatFilePath : String := "temp/concat_list.txt"

/-- The path `path.join(this.outputDir, videoId + '.mp4')`. -/
def outputPathFor (videoId : String) : String :=
  "output/videos/" ++ videoId ++ ".mp4"

/-- The `getVideoUrl` method of VideoService. -/
def getVideoUrl (videoId : String) : String :=
  "/api/videos/stream/" ++ videoId

/-- An encoded segment: its temp file path, the loop index and scene it
came from, the duration the image is held for (`-t scene.duration`), and
whether an audio stream was emitted. -/
structure Segment where
  path : String
  index : Nat
  sceneId : Nat
  duration : Nat
  hasAudioStream : Bool
deriving Repr, DecidableEq

/-- Embeds `VideoService.createSegment(scene, imagePath, audioPath, index)`:
resolves with the segment path on ffmpeg success, rejects with the ffmpeg
error otherwise. The image input is looped for `scene.duration` seconds;
the audio branch is decided by `audioStreamIncluded`. -/
def createSegment (env : FFmpegEnv) (scene : Scene) (imagePath : String)
    (audioPath : Option String) (index : Nat) : Except String Segment :=
  if env.encodeOk index then
    Except.ok
      { path := segmentPath index
        index := index
        sceneId := scene.id
        duration := scene.duration
        hasAudioStream := audioStreamIncluded env audioPath }
  else
    Except.error "FFmpeg encoding error"

/-- The per-scene loop of createVideo (`for (let i = 0; ...)`) starting at
index `i`: skips a scene when `!image?.path`, otherwise awaits
createSegment; a rejected createSegment throws out of the loop, so the
result is the list of segments created so far paired with `some error`.
A completed loop yields `none` in the second component. -/
def encodeLoop (env : FFmpegEnv) (images : List ImageAsset)
    (audioFiles : List AudioAsset) : List Scene → Nat → List Segment × Option String
  | [], _ => ([], none)
  | scene :: rest, i =>
    match imagePathOf (findImage images scene.id) with
    | none => encodeLoop env images audioFiles rest (i + 1)
    | some imgPath =>
      match createSegment env scene imgPath
          (audioPathOf (findAudio audioFiles scene.id)) i with
      | Except.error e => ([], some e)
      | Except.ok seg =>
        let r := encodeLoop env images audioFiles rest (i + 1)
        (seg :: r.1, r.2)

/-- The segments produced by a run (in loop order). -/
def producedSegments (env : FFmpegEnv) (script : Script)
    (images : List ImageAsset) (audioFiles : List AudioAsset) : List Segment :=
  (encodeLoop env images audioFiles script.scenes 0).1

/-- Embeds `VideoService.concatenateSegments(segments, outputPath)` acting on the
set `fsT` of temp files: writes the concat manifest (one `file` directive
per segment path, in list order), then runs the concat process; on success
the end handler unlinks the manifest, on error it is left behind. Returns
the process result and the temp files remaining. -/
def concatenateSegments (env : FFmpegEnv) (fsT : List String) :
    Except String Unit × List String :=
  let fs1 := fsT ++ [concatFilePath]
  if env.concatOk then
    (Except.ok (), fs1.filter (fun f => !(f == concatFilePath)))
  else
    (Except.error "Concatenation error", fs1)

/-- Embeds `VideoService.cleanupSegments(segments)` acting on the set `fsT` of
temp files: unlinks each listed segment, ignoring per-file errors. -/
def cleanupSegments (fsT : List String) (segments : List String) : List String :=
  fsT.filter (fun f => !(segments.contains f))

instance exceptDecEq {ε α : Type} [DecidableEq ε] [DecidableEq α] :
    DecidableEq (Except ε α) := fun a b =>
  match a, b with
  | Except.error e1, Except.error e2 =>
    if h : e1 = e2 then isTrue (by rw [h]) else
      isFalse (fun hc => h (Except.error.injEq e1 e2 ▸ hc))
  | Except.error _, Except.ok _ => isFalse (fun hc => Except.noConfusion hc)
  | Except.ok _, Except.error _ => isFalse (fun hc => Except.noConfusion hc)
  | Except.ok v1, Except.ok v2 =>
    if h : v1 = v2 then isTrue (by rw [h]) else
      isFalse (fun hc => h (Except.ok.injEq v1 v2 ▸ hc))

/-- The record returned by createVideo on success. -/
structure OutputArtifact where
  videoId : String
  path : String
  url : String
  size : Nat
  duration : Nat
deriving Repr, DecidableEq

/-- Observable outcome of one createVideo run: the returned artifact or
thrown error, the temp files still on disk at termination, whether the
concatenation step was invoked (only then is the output path written to),
the ordered manifest handed to the concatenator (if reached), and every
temp file the run wrote. -/
structure RunOutcome where
  result : Except String OutputArtifact
  leftoverTempFiles : List String
  concatInvoked : Bool
  concatManifest : Option (List String)
  tempFilesWritten : List String
deriving Repr, DecidableEq

/-- The tail of createVideo after the per-scene loop: throw
`No valid segments created` when the loop completed with zero segments,
otherwise concatenate and, on success, stat the output, clean up the
segments and return `{ videoId, path, url, size,
duration: script.totalDuration }`; a loop aborted by a createSegment
rejection rethrows that error from the catch block with no cleanup. -/
def finalizeRun (env : FFmpegEnv) (videoId : String) (script : Script) :
    List Segment × Option String → RunOutcome
  | (segs, some e) =>
    { result := Except.error e
      leftoverTempFiles := segs.map Segment.path
      concatInvoked := false
      concatManifest := none
      tempFilesWritten := segs.map Segment.path }
  | (segs, none) =>
    if segs.isEmpty then
      { result := Except.error "No valid segments created"
        leftoverTempFiles := []
        concatInvoked := false
        concatManifest := none
        tempFilesWritten := [] }
    else
      match concatenateSegments env (segs.map Segment.path) with
      | (Except.error e, fsLeft) =>
        { result := Except.error e
          leftoverTempFiles := fsLeft
          concatInvoked := true
          concatManifest := some (segs.map Segment.path)
          tempFilesWritten := segs.map Segment.path ++ [concatFilePath] }
      | (Except.ok _, fsLeft) =>
        { result := Except.ok
            { videoId := videoId
              path := outputPathFor videoId
              url := getVideoUrl videoId
              size := env.outputSize
              duration := script.totalDuration }
          leftoverTempFiles := cleanupSegments fsLeft (segs.map Segment.path)
          concatInvoked := true
          concatManifest := some (segs.map Segment.path)
          tempFilesWritten := segs.map Segment.path ++ [concatFilePath] }

/-- Embeds `VideoService.createVideo(script, images, audioFiles)`. `videoId`
stands for the `uuidv4()` allocated at entry (before any validation).
The try block runs the per-scene loop and then `finalizeRun`. -/
def createVideo (env : FFmpegEnv) (videoId : String) (script : Script)
    (images : List ImageAsset) (audioFiles : List AudioAsset) : RunOutcome :=
  finalizeRun env videoId script (encodeLoop env images audioFiles script.scenes 0)

/-- Oracle for the speech providers: `hasApiKey` is whether an ElevenLabs
key is configured, `elevenOk`/`googleOk` whether each provider succeeds
for a given scene id. -/
structure TTSEnv where
  hasApiKey : Bool
  elevenOk : Nat → Bool
  googleOk : Nat → Bool

/-- The path `path.join(this.tempDir, 'scene_' + sceneId + '.mp3')` of TTSService. -/
def audioFilePath (sceneId : Nat) : String :=
  "temp/audio/scene_" ++ toString sceneId ++ ".mp3"

/-- Embeds `TTSService.generateSpeech(text, sceneId)`: tries ElevenLabs when a
key is configured, falling back to Google TTS on its failure; without a
key it goes straight to Google TTS. Throws only when the last provider
tried fails. -/
def generateSpeech (env : TTSEnv) (text : String) (sceneId : Nat) :
    Except String String :=
  if env.hasApiKey then
    if env.elevenOk sceneId then Except.ok (audioFilePath sceneId)
    else if env.googleOk sceneId then Except.ok (audioFilePath sceneId)
    else Except.error "Google TTS error"
  else
    if env.googleOk sceneId then Except.ok (audioFilePath sceneId)
    else Except.error "Google TTS error"

/-- The record `generateAudioForScenes` pushes for one scene: the try arm
on generateSpeech success, the catch arm (`path: null, silent: true`) on
failure. -/
def audioRecordFor (env : TTSEnv) (scene : Scene) : AudioAsset :=
  match generateSpeech env scene.narration scene.id with
  | Except.ok p =>
    { sceneId := scene.id, path := some p, duration := scene.duration, silent := false }
  | Except.error _ =>
    { sceneId := scene.id, path := none, duration := scene.duration, silent := true }

/-- Embeds `TTSService.generateAudioForScenes(script)`: one record pushed per
scene, in scene order; the per-scene try/catch makes the whole loop
total. -/
def generateAudioForScenes (env : TTSEnv) (script : Script) : List AudioAsset :=
  script.scenes.map (audioRecordFor env)


/-! Concrete fixtures used by counterexamples and witnesses. -/

/-- Environment where every external process succeeds. -/
def envAll : FFmpegEnv :=
  { encodeOk := fun _ => true, concatOk := true, fsExists := fun _ => true,
    outputSize := 1000 }

/-- Environment where every encode succeeds but concatenation fails. -/
def envNoConcat : FFmpegEnv :=
  { encodeOk := fun _ => true, concatOk := false, fsExists := fun _ => true,
    outputSize := 0 }

/-- Environment where the encode of segment index 0 fails and later ones
would succeed. -/
def envFailFirst : FFmpegEnv :=
  { encodeOk := fun i => !(i == 0), concatOk := true, fsExists := fun _ => true,
    outputSize := 0 }

/-- Environment where every encode fails. -/
def envFailAll : FFmpegEnv :=
  { encodeOk := fun _ => false, concatOk := true, fsExists := fun _ => true,
    outputSize := 0 }

/-- First fixture scene. -/
def scene1 : Scene := { id := 1, duration := 30, narration := "intro" }

/-- Second fixture scene. -/
def scene2 : Scene := { id := 2, duration := 45, narration := "body" }

/-- A two-scene script whose precomputed total is 75 seconds. -/
def script1 : Script := { scenes := [scene1, scene2], totalDuration := 75 }

/-- A one-scene script. -/
def script3 : Script :=
  { scenes := [{ id := 1, duration := 10, narration := "solo" }], totalDuration := 10 }

/-- A script with an empty scene list. -/
def scriptEmpty : Script := { scenes := [], totalDuration := 0 }

/-- An image for scene 1 only (scene 2 has no image). -/
def images1 : List ImageAsset := [{ sceneId := 1, path := "img1.png" }]

/-- Images for both scenes of `script1`. -/
def images12 : List ImageAsset :=
  [{ sceneId := 1, path := "img1.png" }, { sceneId := 2, path := "img2.png" }]

/-- Two image assets sharing the same sceneId (data-integrity anomaly). -/
def imgsDup : List ImageAsset :=
  [{ sceneId := 5, path := "first.png" }, { sceneId := 5, path := "second.png" }]

/-- Two audio assets sharing the same sceneId. -/
def audsDup : List AudioAsset :=
  [{ sceneId := 5, path := some "a1.mp3", duration := 4, silent := false },
   { sceneId := 5, path := some "a2.mp3", duration := 4, silent := false }]

/-- The artifact returned by the successful `envAll`/`script1`/`images1`
run with run id `run1`. -/
def artifact1 : OutputArtifact :=
  { videoId := "run1", path := "output/videos/run1.mp4",
    url := "/api/videos/stream/run1", size := 1000, duration := 75 }

/-- The segment encoded for `scene1` with no audio record present. -/
def segNoAudio : Segment :=
  { path := segmentPath 0, index := 0, sceneId := 1, duration := 30,
    hasAudioStream := false }

/-- TTS environment where both providers fail for every scene. -/
def ttsAllFail : TTSEnv :=
  { hasApiKey := true, elevenOk := fun _ => false, googleOk := fun _ => false }

/-- Fixture scene for the TTS witness. -/
def sceneW : Scene := { id := 3, duration := 7, narration := "hi" }

/-! Helper lemmas. -/

/-- A successful createSegment call fixes every field of the segment:
path `segment_<index>.mp4`, the scene it came from, the `-t` duration,
and the audio-branch decision. -/
theorem createSegment_ok_fields (env : FFmpegEnv) (scene : Scene)
    (imgPath : String) (audioPath : Option String) (i : Nat) (seg : Segment)
    (h : createSegment env scene imgPath audioPath i = Except.ok seg) :
    seg.path = segmentPath i ∧ seg.index = i ∧ seg.sceneId = scene.id
    ∧ seg.duration = scene.duration
    ∧ seg.hasAudioStream = audioStreamIncluded env audioPath := by
  unfold createSegment at h
  split at h
  · injection h with h2
    subst h2
    exact ⟨rfl, rfl, rfl, rfl, rfl⟩
  · cases h

/-- Unlinking every segment after a successful concatenation empties the
temp set: nothing remains of `l ++ [manifest]` once the manifest was
removed and every member of `l` unlinked. -/
theorem cleanup_after_concat (l : List String) :
    cleanupSegments ((l ++ [concatFilePath]).filter (fun f => !(f == concatFilePath))) l
      = [] := by
  rw [List.eq_nil_iff_forall_not_mem]
  intro a ha
  simp only [cleanupSegments, List.mem_filter, List.mem_append, List.mem_singleton,
    Bool.not_eq_true', beq_eq_false_iff_ne, ne_eq] at ha
  rcases ha with ⟨⟨hmem | hmem, hne⟩, hnc⟩
  · have h2 : l.contains a = true := by
      simpa [List.elem_iff] using hmem
    rw [hnc] at h2
    cases h2
  · exact hne hmem

theorem encodeLoop_completed_paths (env : FFmpegEnv) (imgs : List ImageAsset)
    (auds : List AudioAsset) :
    ∀ (scenes : List Scene) (i : Nat),
    (encodeLoop env imgs auds scenes i).2 = none →
    (encodeLoop env imgs auds scenes i).1.map Segment.path
      = ((List.enumFrom i scenes).filter
          (fun p => (imagePathOf (findImage imgs p.2.id)).isSome)).map
          (fun p => segmentPath p.1) := by
  intro scenes
  induction scenes with
  | nil => intro i h; simp [encodeLoop]
  | cons scene rest ih =>
    intro i h
    simp only [encodeLoop] at h ⊢
    cases himg : imagePathOf (findImage imgs scene.id) with
    | none =>
      rw [himg] at h
      dsimp only at h ⊢
      rw [show List.enumFrom i (scene :: rest) = (i, scene) :: List.enumFrom (i + 1) rest from rfl]
      rw [List.filter_cons_of_neg (by simp [himg])]
      exact ih (i + 1) h
    | some imgPath =>
      rw [himg] at h
      dsimp only at h ⊢
      cases henc : createSegment env scene imgPath (audioPathOf (findAudio auds scene.id)) i with
      | error e =>
        rw [henc] at h
        dsimp only at h
        cases h
      | ok seg =>
        rw [henc] at h
        dsimp only at h ⊢
        rw [show List.enumFrom i (scene :: rest) = (i, scene) :: List.enumFrom (i + 1) rest from rfl]
        rw [List.filter_cons_of_pos (by simp [himg])]
        rw [List.map_cons, List.map_cons]
        congr 1
        · exact (createSegment_ok_fields env scene imgPath _ i seg henc).1
        · exact ih (i + 1) h

theorem encodeLoop_audio_irrelevant (env : FFmpegEnv) (imgs : List ImageAsset)
    (a1 a2 : List AudioAsset) :
    ∀ (scenes : List Scene) (i : Nat),
    (encodeLoop env imgs a1 scenes i).1.map Segment.path
      = (encodeLoop env imgs a2 scenes i).1.map Segment.path
    ∧ (encodeLoop env imgs a1 scenes i).2 = (encodeLoop env imgs a2 scenes i).2 := by
  intro scenes
  induction scenes with
  | nil => intro i; exact ⟨rfl, rfl⟩
  | cons scene rest ih =>
    intro i
    simp only [encodeLoop]
    cases himg : imagePathOf (findImage imgs scene.id) with
    | none =>
      dsimp only
      exact ih (i + 1)
    | some imgPath =>
      dsimp only
      have h1 := ih (i + 1)
      cases henc : env.encodeOk i with
      | true => simp [createSegment, henc, h1.1, h1.2]
      | false => simp [createSegment, henc]

/-- Branch equation of finalizeRun: a loop aborted by an encoding error
rethrows it; the segments already written stay on disk. -/
theorem finalizeRun_err (env : FFmpegEnv) (vid : String) (script : Script)
    (segs : List Segment) (e : String) :
    finalizeRun env vid script (segs, some e)
      = { result := Except.error e,
          leftoverTempFiles := segs.map Segment.path,
          concatInvoked := false,
          concatManifest := none,
          tempFilesWritten := segs.map Segment.path } := rfl

/-- Branch equation of finalizeRun: a completed loop with zero segments
throws the no-valid-segments error before touching any file. -/
theorem finalizeRun_empty (env : FFmpegEnv) (vid : String) (script : Script) :
    finalizeRun env vid script ([], none)
      = { result := Except.error "No valid segments created",
          leftoverTempFiles := [],
          concatInvoked := false,
          concatManifest := none,
          tempFilesWritten := [] } := rfl

/-- Branch equation of finalizeRun: concatenation failure rethrows, and
the segments and the manifest stay on disk. -/
theorem finalizeRun_concat_fail (env : FFmpegEnv) (vid : String) (script : Script)
    (segs : List Segment) (hne : segs.isEmpty = false) (hok : env.concatOk = false) :
    finalizeRun env vid script (segs, none)
      = { result := Except.error "Concatenation error",
          leftoverTempFiles := segs.map Segment.path ++ [concatFilePath],
          concatInvoked := true,
          concatManifest := some (segs.map Segment.path),
          tempFilesWritten := segs.map Segment.path ++ [concatFilePath] } := by
  have h1 : concatenateSegments env (segs.map Segment.path)
      = (Except.error "Concatenation error", segs.map Segment.path ++ [concatFilePath]) := by
    unfold concatenateSegments
    rw [if_neg (by simp [hok])]
  dsimp only [finalizeRun]
  rw [if_neg (by simp [hne])]
  rw [h1]

/-- Branch equation of finalizeRun: on success the artifact carries the
script's precomputed total duration and every temp file is removed. -/
theorem finalizeRun_concat_success (env : FFmpegEnv) (vid : String) (script : Script)
    (segs : List Segment) (hne : segs.isEmpty = false) (hok : env.concatOk = true) :
    finalizeRun env vid script (segs, none)
      = { result := Except.ok
            { videoId := vid, path := outputPathFor vid, url := getVideoUrl vid,
              size := env.outputSize, duration := script.totalDuration },
          leftoverTempFiles := [],
          concatInvoked := true,
          concatManifest := some (segs.map Segment.path),
          tempFilesWritten := segs.map Segment.path ++ [concatFilePath] } := by
  have h1 : concatenateSegments env (segs.map Segment.path)
      = (Except.ok (), (segs.map Segment.path ++ [concatFilePath]).filter
          (fun f => !(f == concatFilePath))) := by
    unfold concatenateSegments
    rw [if_pos hok]
  dsimp only [finalizeRun]
  rw [if_neg (by simp [hne])]
  rw [h1]
  dsimp only
  rw [cleanup_after_concat]

/-- C1 (amended): for every successful run, the duration reported in the
Output Artifact is the script's precomputed `totalDuration` (line
`duration: script.totalDuration` of createVideo), independent of which
scenes produced segments. -/
theorem createVideo_duration_eq_script_total :
    ∀ (env : FFmpegEnv) (vid : String) (script : Script) (imgs : List ImageAsset)
      (auds : List AudioAsset) (art : OutputArtifact),
    (createVideo env vid script imgs auds).result = Except.ok art →
    art.duration = script.totalDuration := by
  intro env vid script imgs auds art h
  unfold createVideo at h
  obtain ⟨segs, err, hE⟩ : ∃ segs err, encodeLoop env imgs auds script.scenes 0 = (segs, err) :=
    ⟨_, _, rfl⟩
  rw [hE] at h
  cases err with
  | some e =>
    rw [finalizeRun_err] at h
    cases h
  | none =>
    cases hemp : segs.isEmpty with
    | true =>
      have hnil : segs = [] := List.isEmpty_iff.mp hemp
      subst hnil
      rw [finalizeRun_empty] at h
      cases h
    | false =>
      cases hok : env.concatOk with
      | false =>
        rw [finalizeRun_concat_fail env vid script segs hemp hok] at h
        cases h
      | true =>
        rw [finalizeRun_concat_success env vid script segs hemp hok] at h
        injection h with h2
        rw [← h2]

/-- C1 counterexample: in the all-success environment, `script1` with an
image only for scene 1 skips scene 2, yet the returned artifact reports
duration 75 (the script total), not 30 (the sum over scenes that produced
a segment). -/
theorem createVideo_duration_cex :
    (createVideo envAll "run1" script1 images1 []).result = Except.ok artifact1
    ∧ ((producedSegments envAll script1 images1 []).map Segment.duration).sum = 30
    ∧ artifact1.duration = 75
    ∧ (75 : Nat) ≠ 30 := by
  exact ⟨by decide, by decide, by decide, by decide⟩

/-- C1 witness: the amended theorem applied to the concrete successful
run of `script1`. -/
theorem createVideo_duration_eq_script_total_witness :
    artifact1.duration = script1.totalDuration :=
  createVideo_duration_eq_script_total envAll "run1" script1 images1 [] artifact1 (by decide)

/-- C2 (amended): when createSegment rejects for some scene, the error
propagates out of the per-scene loop and the whole run fails with that
error: no later scene is processed, concatenation is never invoked, and
the segments written so far are left on disk. -/
theorem createVideo_encoding_failure_aborts :
    ∀ (env : FFmpegEnv) (vid : String) (script : Script) (imgs : List ImageAsset)
      (auds : List AudioAsset) (segs : List Segment) (e : String),
    encodeLoop env imgs auds script.scenes 0 = (segs, some e) →
    (createVideo env vid script imgs auds).result = Except.error e
    ∧ (createVideo env vid script imgs auds).concatInvoked = false
    ∧ (createVideo env vid script imgs auds).leftoverTempFiles = segs.map Segment.path := by
  intro env vid script imgs auds segs e h
  unfold createVideo
  rw [h, finalizeRun_err]
  exact ⟨rfl, rfl, rfl⟩

/-- C2 counterexample: both scenes of `script1` have images, but the
encode of scene 1 (index 0) fails; the run aborts with the ffmpeg error
and produces zero segments — scene 2 is never encoded, refuting
skip-and-continue. -/
theorem encoding_failure_not_skipped_cex :
    (createVideo envFailFirst "run2" script1 images12 []).result
      = Except.error "FFmpeg encoding error"
    ∧ producedSegments envFailFirst script1 images12 [] = [] := by
  exact ⟨by decide, by decide⟩

/-- C2 witness: the amended theorem applied to the concrete aborted run. -/
theorem createVideo_encoding_failure_aborts_witness :
    (createVideo envFailFirst "run2w" script1 images12 []).result
      = Except.error "FFmpeg encoding error" :=
  (createVideo_encoding_failure_aborts envFailFirst "run2w" script1 images12 [] []
    "FFmpeg encoding error" (by decide)).1

/-- C3 (amended): cleanup is guaranteed only on the success path — after
a run that returns an Output Artifact, no temporary segment file and no
manifest remains. -/
theorem createVideo_success_no_leftover :
    ∀ (env : FFmpegEnv) (vid : String) (script : Script) (imgs : List ImageAsset)
      (auds : List AudioAsset) (art : OutputArtifact),
    (createVideo env vid script imgs auds).result = Except.ok art →
    (createVideo env vid script imgs auds).leftoverTempFiles = [] := by
  intro env vid script imgs auds art h
  unfold createVideo at h ⊢
  obtain ⟨segs, err, hE⟩ : ∃ segs err, encodeLoop env imgs auds script.scenes 0 = (segs, err) :=
    ⟨_, _, rfl⟩
  rw [hE] at h ⊢
  cases err with
  | some e =>
    rw [finalizeRun_err] at h
    cases h
  | none =>
    cases hemp : segs.isEmpty with
    | true =>
      have hnil : segs = [] := List.isEmpty_iff.mp hemp
      subst hnil
      rw [finalizeRun_empty] at h
      cases h
    | false =>
      cases hok : env.concatOk with
      | false =>
        rw [finalizeRun_concat_fail env vid script segs hemp hok] at h
        cases h
      | true =>
        rw [finalizeRun_concat_success env vid script segs hemp hok]

/-- C3 counterexample: encoding succeeds for both scenes but
concatenation fails; the run terminates with both segment files and the
concat manifest still on disk, so the temp directory is not empty after
this failed run. -/
theorem concat_failure_leftover_cex :
    (createVideo envNoConcat "run3" script1 images12 []).result
      = Except.error "Concatenation error"
    ∧ (createVideo envNoConcat "run3" script1 images12 []).leftoverTempFiles
      = [segmentPath 0, segmentPath 1, concatFilePath]
    ∧ ([segmentPath 0, segmentPath 1, concatFilePath] : List String) ≠ [] := by
  exact ⟨by decide, by decide, by decide⟩

/-- C3 witness: the amended theorem applied to the concrete successful
run. -/
theorem createVideo_success_no_leftover_witness :
    (createVideo envAll "run1" script1 images1 []).leftoverTempFiles = [] :=
  createVideo_success_no_leftover envAll "run1" script1 images1 [] artifact1 (by decide)

/-- C4 (amended): a successfully encoded segment carries an audio stream
exactly when an audio path was supplied, truthy, and the file exists
(the `if (audioPath && fsSync.existsSync(audioPath))` branch); with no
narration audio the encoder emits a video-only segment (`-an`), never a
synthesized-silence track. -/
theorem createSegment_audio_policy :
    ∀ (env : FFmpegEnv) (scene : Scene) (imgPath : String) (audioPath : Option String)
      (i : Nat) (seg : Segment),
    createSegment env scene imgPath audioPath i = Except.ok seg →
    seg.hasAudioStream = audioStreamIncluded env audioPath
    ∧ audioStreamIncluded env none = false := by
  intro env scene imgPath audioPath i seg h
  exact ⟨(createSegment_ok_fields env scene imgPath audioPath i seg h).2.2.2.2, rfl⟩

/-- C4 counterexample: the one segment produced for `script1` (scene 1,
which has an image but no audio record) has no audio stream, refuting
the always-emit-an-audio-stream policy. -/
theorem segment_missing_audio_no_stream_cex :
    (producedSegments envAll script1 images1 []).map Segment.hasAudioStream = [false]
    ∧ (producedSegments envAll script1 images1 []).length = 1 := by
  exact ⟨by decide, by decide⟩

/-- C4 witness: the amended theorem applied to the concrete no-audio
segment of scene 1. -/
theorem createSegment_audio_policy_witness :
    segNoAudio.hasAudioStream = audioStreamIncluded envAll none :=
  (createSegment_audio_policy envAll scene1 "img1.png" none 0 segNoAudio (by decide)).1

/-- C5 (amended): the temporary file paths a run writes (segment files
`segment_<index>.mp4` and the manifest `concat_list.txt`) do not depend
on the run identifier at all — two runs differing only in their id use
exactly the same temp paths, so concurrent runs share them. -/
theorem createVideo_temp_paths_run_id_independent :
    ∀ (env : FFmpegEnv) (vid1 vid2 : String) (script : Script)
      (imgs : List ImageAsset) (auds : List AudioAsset),
    (createVideo env vid1 script imgs auds).tempFilesWritten
      = (createVideo env vid2 script imgs auds).tempFilesWritten
    ∧ (createVideo env vid1 script imgs auds).leftoverTempFiles
      = (createVideo env vid2 script imgs auds).leftoverTempFiles
    ∧ (createVideo env vid1 script imgs auds).concatManifest
      = (createVideo env vid2 script imgs auds).concatManifest := by
  intro env vid1 vid2 script imgs auds
  unfold createVideo
  obtain ⟨segs, err, hE⟩ : ∃ segs err, encodeLoop env imgs auds script.scenes 0 = (segs, err) :=
    ⟨_, _, rfl⟩
  rw [hE]
  cases err with
  | some e =>
    rw [finalizeRun_err, finalizeRun_err]
    exact ⟨rfl, rfl, rfl⟩
  | none =>
    cases hemp : segs.isEmpty with
    | true =>
      have hnil : segs = [] := List.isEmpty_iff.mp hemp
      subst hnil
      rw [finalizeRun_empty, finalizeRun_empty]
      exact ⟨rfl, rfl, rfl⟩
    | false =>
      cases hok : env.concatOk with
      | false =>
        rw [finalizeRun_concat_fail env vid1 script segs hemp hok,
          finalizeRun_concat_fail env vid2 script segs hemp hok]
        exact ⟨rfl, rfl, rfl⟩
      | true =>
        rw [finalizeRun_concat_success env vid1 script segs hemp hok,
          finalizeRun_concat_success env vid2 script segs hemp hok]
        exact ⟨rfl, rfl, rfl⟩

/-- C5 counterexample: two runs with distinct run identifiers write
exactly the same (non-disjoint, in fact identical and nonempty) temp
paths. -/
theorem shared_temp_paths_cex :
    ("runA" : String) ≠ "runB"
    ∧ (createVideo envAll "runA" script1 images1 []).tempFilesWritten
      = (createVideo envAll "runB" script1 images1 []).tempFilesWritten
    ∧ (createVideo envAll "runA" script1 images1 []).tempFilesWritten ≠ [] := by
  exact ⟨by decide, by decide, by decide⟩

/-- C6 (amended): when the per-scene loop completes having produced zero
segments (every scene skipped), createVideo fails with the
no-valid-segments error, concatenation is never invoked and no file is
written; conversely concatenation is invoked only when at least one
segment was produced. (A scene whose encoding fails instead aborts the
run with that encoding error — see the counterexample.) -/
theorem createVideo_no_valid_segments_gate :
    ∀ (env : FFmpegEnv) (vid : String) (script : Script) (imgs : List ImageAsset)
      (auds : List AudioAsset),
    (encodeLoop env imgs auds script.scenes 0 = ([], none) →
      (createVideo env vid script imgs auds).result
        = Except.error "No valid segments created"
      ∧ (createVideo env vid script imgs auds).concatInvoked = false
      ∧ (createVideo env vid script imgs auds).tempFilesWritten = [])
    ∧ ((createVideo env vid script imgs auds).concatInvoked = true →
      (encodeLoop env imgs auds script.scenes 0).1 ≠ []) := by
  intro env vid script imgs auds
  constructor
  · intro h
    unfold createVideo
    rw [h, finalizeRun_empty]
    exact ⟨rfl, rfl, rfl⟩
  · intro h hnil
    unfold createVideo at h
    obtain ⟨segs, err, hE⟩ : ∃ segs err, encodeLoop env imgs auds script.scenes 0 = (segs, err) :=
      ⟨_, _, rfl⟩
    rw [hE] at h hnil
    have hsegs : segs = [] := hnil
    subst hsegs
    cases err with
    | some e =>
      rw [finalizeRun_err] at h
      cases h
    | none =>
      rw [finalizeRun_empty] at h
      cases h

/-- C6 counterexample: a script whose only scene has an image but fails
to encode produces zero segments, yet the run fails with the ffmpeg
encoding error, not the no-valid-segments error the claim names. -/
theorem unencodable_error_not_no_valid_segments_cex :
    (createVideo envFailAll "run6" script3 images1 []).result
      = Except.error "FFmpeg encoding error"
    ∧ ("FFmpeg encoding error" : String) ≠ "No valid segments created"
    ∧ (createVideo envFailAll "run6" script3 images1 []).concatInvoked = false := by
  exact ⟨by decide, by decide, by decide⟩

/-- C6 witness: the amended theorem applied to a run where both scenes
lack images. -/
theorem createVideo_no_valid_segments_gate_witness :
    (createVideo envAll "run6w" script1 [] []).result
      = Except.error "No valid segments created" :=
  ((createVideo_no_valid_segments_gate envAll "run6w" script1 [] []).1 (by decide)).1

/-- C7 (confirmed): whenever a manifest is handed to the concatenator, it
lists exactly the segment paths of the scenes with a resolvable image, in
script order — one entry per such scene, indices strictly increasing, no
reordering. -/
theorem concat_manifest_matches_scene_order :
    ∀ (env : FFmpegEnv) (vid : String) (script : Script) (imgs : List ImageAsset)
      (auds : List AudioAsset) (m : List String),
    (createVideo env vid script imgs auds).concatManifest = some m →
    m = ((script.scenes.enum.filter
          (fun p => (imagePathOf (findImage imgs p.2.id)).isSome)).map
          (fun p => segmentPath p.1))
    ∧ List.Pairwise (fun a b => a < b)
        ((script.scenes.enum.filter
          (fun p => (imagePathOf (findImage imgs p.2.id)).isSome)).map Prod.fst) := by
  intro env vid script imgs auds m h
  constructor
  · unfold createVideo at h
    obtain ⟨segs, err, hE⟩ : ∃ segs err, encodeLoop env imgs auds script.scenes 0 = (segs, err) :=
      ⟨_, _, rfl⟩
    rw [hE] at h
    cases err with
    | some e =>
      rw [finalizeRun_err] at h
      cases h
    | none =>
      have hsnd : (encodeLoop env imgs auds script.scenes 0).2 = none := by
        rw [hE]
      have hpaths := encodeLoop_completed_paths env imgs auds script.scenes 0 hsnd
      rw [hE] at hpaths
      cases hemp : segs.isEmpty with
      | true =>
        have hnil : segs = [] := List.isEmpty_iff.mp hemp
        subst hnil
        rw [finalizeRun_empty] at h
        cases h
      | false =>
        cases hok : env.concatOk with
        | false =>
          rw [finalizeRun_concat_fail env vid script segs hemp hok] at h
          dsimp only at h
          injection h with h2
          rw [← h2]
          exact hpaths
        | true =>
          rw [finalizeRun_concat_success env vid script segs hemp hok] at h
          dsimp only at h
          injection h with h2
          rw [← h2]
          exact hpaths
  · have h1 : ((script.scenes.enum.filter
        (fun p => (imagePathOf (findImage imgs p.2.id)).isSome)).map Prod.fst).Sublist
        (script.scenes.enum.map Prod.fst) :=
      List.Sublist.map Prod.fst (List.filter_sublist _)
    have h2 : script.scenes.enum.map Prod.fst = List.range script.scenes.length :=
      List.enum_map_fst _
    exact List.Pairwise.sublist h1 (h2 ▸ List.pairwise_lt_range script.scenes.length)

/-- C7 witness: the theorem applied to the `script1` run where scene 2 is
skipped — the manifest is exactly the one segment path of scene 1. -/
theorem concat_manifest_matches_scene_order_witness :
    ([segmentPath 0] : List String)
      = ((script1.scenes.enum.filter
          (fun p => (imagePathOf (findImage images1 p.2.id)).isSome)).map
          (fun p => segmentPath p.1)) :=
  (concat_manifest_matches_scene_order envAll "run7" script1 images1 [] [segmentPath 0]
    (by decide)).1

/-- C8 (amended): for an empty scene list the loop runs zero times and
createVideo fails with the no-valid-segments error; nothing is encoded,
concatenation is not invoked, and no temp file is written. There is no
dedicated INIT-stage InvalidScript validation, and the run identifier
(`uuidv4()` at entry, modelled as the `vid` argument) is allocated before
this failure. -/
theorem createVideo_empty_script_no_init_validation :
    ∀ (env : FFmpegEnv) (vid : String) (imgs : List ImageAsset)
      (auds : List AudioAsset) (script : Script),
    script.scenes = [] →
    (createVideo env vid script imgs auds).result
      = Except.error "No valid segments created"
    ∧ (createVideo env vid script imgs auds).concatInvoked = false
    ∧ (createVideo env vid script imgs auds).tempFilesWritten = []
    ∧ (createVideo env vid script imgs auds).leftoverTempFiles = [] := by
  intro env vid imgs auds script h
  unfold createVideo
  rw [h]
  rw [show encodeLoop env imgs auds [] 0 = ([], none) from rfl]
  rw [finalizeRun_empty]
  exact ⟨rfl, rfl, rfl, rfl⟩

/-- C8 counterexample: the empty script fails with the generic
no-valid-segments error thrown after the loop, not a dedicated
InvalidScript validation error raised in an INIT stage. -/
theorem empty_script_not_invalid_script_cex :
    (createVideo envAll "run8" scriptEmpty [] []).result
      = Except.error "No valid segments created"
    ∧ (createVideo envAll "run8" scriptEmpty [] []).concatInvoked = false
    ∧ (createVideo envAll "run8" scriptEmpty [] []).tempFilesWritten = [] := by
  exact ⟨by decide, by decide, by decide⟩

/-- C8 witness: the amended theorem applied to the concrete empty
script. -/
theorem createVideo_empty_script_no_init_validation_witness :
    (createVideo envAll "run8w" scriptEmpty [] []).result
      = Except.error "No valid segments created" :=
  (createVideo_empty_script_no_init_validation envAll "run8w" [] [] scriptEmpty rfl).1

/-- C9 (confirmed): asset resolution is the pure lookup `find` by exact
sceneId equality: any hit has the looked-up sceneId, and when several
assets share a sceneId the first one in the list wins, with no error
raised — for both image and audio assets. -/
theorem asset_resolution_exact_first_match :
    ∀ (images : List ImageAsset) (audioFiles : List AudioAsset) (sid : Nat),
    (∀ a, findImage images sid = some a → a.sceneId = sid)
    ∧ (∀ (a : ImageAsset) (tl : List ImageAsset), a.sceneId = sid →
        findImage (a :: tl) sid = some a)
    ∧ (∀ b, findAudio audioFiles sid = some b → b.sceneId = sid)
    ∧ (∀ (b : AudioAsset) (tl : List AudioAsset), b.sceneId = sid →
        findAudio (b :: tl) sid = some b) := by
  intro images audioFiles sid
  refine ⟨?_, ?_, ?_, ?_⟩
  · intro a h
    unfold findImage at h
    have hp := List.find?_some h
    simpa using hp
  · intro a tl h
    unfold findImage
    exact List.find?_cons_of_pos tl (by simp [h])
  · intro b h
    unfold findAudio at h
    have hp := List.find?_some h
    simpa using hp
  · intro b tl h
    unfold findAudio
    exact List.find?_cons_of_pos tl (by simp [h])

/-- C9 witness: with two image assets and two audio assets sharing
sceneId 5, resolution returns the first of each without error. -/
theorem asset_resolution_exact_first_match_witness :
    findImage imgsDup 5 = some { sceneId := 5, path := "first.png" }
    ∧ findAudio audsDup 5
      = some { sceneId := 5, path := some "a1.mp3", duration := 4, silent := false } :=
  ⟨(asset_resolution_exact_first_match imgsDup audsDup 5).2.1
      { sceneId := 5, path := "first.png" }
      [{ sceneId := 5, path := "second.png" }] rfl,
   (asset_resolution_exact_first_match imgsDup audsDup 5).2.2.2
      { sceneId := 5, path := some "a1.mp3", duration := 4, silent := false }
      [{ sceneId := 5, path := some "a2.mp3", duration := 4, silent := false }] rfl⟩

/-- C10 (confirmed): generateAudioForScenes is total and returns exactly
one record per scene in scene order; when generateSpeech fails for a
scene (after the provider fallback) that record is
`path: null, silent: true`; and the audio list cannot change how many
segments a run renders nor whether it aborts. -/
theorem generateAudio_per_scene_total :
    ∀ (env : TTSEnv) (script : Script),
    (generateAudioForScenes env script).length = script.scenes.length
    ∧ (generateAudioForScenes env script).map AudioAsset.sceneId
      = script.scenes.map Scene.id
    ∧ (∀ (scene : Scene) (e : String),
        generateSpeech env scene.narration scene.id = Except.error e →
        audioRecordFor env scene
          = { sceneId := scene.id, path := none, duration := scene.duration,
              silent := true })
    ∧ (∀ (fenv : FFmpegEnv) (imgs : List ImageAsset) (auds2 : List AudioAsset)
        (scenes : List Scene) (i : Nat),
        (encodeLoop fenv imgs (generateAudioForScenes env script) scenes i).1.length
          = (encodeLoop fenv imgs auds2 scenes i).1.length
        ∧ (encodeLoop fenv imgs (generateAudioForScenes env script) scenes i).2
          = (encodeLoop fenv imgs auds2 scenes i).2) := by
  intro env script
  have hrec : ∀ scene, (audioRecordFor env scene).sceneId = scene.id := by
    intro scene
    unfold audioRecordFor
    cases generateSpeech env scene.narration scene.id <;> rfl
  refine ⟨?_, ?_, ?_, ?_⟩
  · simp [generateAudioForScenes]
  · show (script.scenes.map (audioRecordFor env)).map AudioAsset.sceneId
      = script.scenes.map Scene.id
    rw [List.map_map]
    exact List.map_eq_map_iff.mpr (fun s _ => hrec s)
  · intro scene e h
    unfold audioRecordFor
    rw [h]
  · intro fenv imgs auds2 scenes i
    have h := encodeLoop_audio_irrelevant fenv imgs
      (generateAudioForScenes env script) auds2 scenes i
    constructor
    · have h2 := congrArg List.length h.1
      simpa using h2
    · exact h.2

/-- C10 witness: with both speech providers failing, the record pushed
for the fixture scene is the silent one. -/
theorem generateAudio_silent_record_witness :
    audioRecordFor ttsAllFail sceneW
      = { sceneId := 3, path := none, duration := 7, silent := true } :=
  (generateAudio_per_scene_total ttsAllFail scriptEmpty).2.2.1 sceneW "Google TTS error"
    (by decide)

end Backend
